import Mathlib

set_option linter.unusedVariables false

/-!
Shallow embedding of `src/validator/main.py` (guardrails-ai/persona_consistency).

Python floats are modelled as exact rationals (`ℚ`); the external
`SentenceTransformer` model is modelled as an injected function from a sentence
to its embedding vector, and `model.encode(xs)` on a batch of sentences maps
that function over the batch, mirroring that `encode` returns one vector per
input sentence.  Every call the checker makes to the embedder is recorded in a
log (a list of the batch arguments passed to `encode`), so that claims about
embedder call counts can be stated.  A Python `raise` is modelled with
`Except`: `Except.error` is an uncaught exception, `Except.ok` a returned
value.
-/

/-- Embedding vector: a fixed-length numeric vector, one rational per
dimension. -/
abbrev Embedding := List ℚ

/-- The loaded sentence-transformer model, abstracted (as the spec directs) to
the function taking one sentence to its embedding.  The concrete
`SentenceTransformer('all-MiniLM-L6-v2')` constructed on line 40 of
`src/validator/main.py` is one instance of this. -/
abbrev SentenceTransformer := String → Embedding

/-- Model of `model.encode(xs)` on a batch `xs` of sentences: one embedding per
sentence. -/
def SentenceTransformer.encode (model : SentenceTransformer) (xs : List String) :
    List Embedding :=
  xs.map model

/-- Log of embedder invocations: each entry is the batch argument of one
`encode` call. -/
abbrev EmbedLog := List (List String)

/-- Python runtime values that can arrive as the `value: Any` argument of
`validate`.  Only `str` passes the `isinstance(value, str)` check on line 45;
the other constructors stand for the non-string runtime types. -/
inductive PyValue where
  | str : String → PyValue
  | int : Int → PyValue
  | float : ℚ → PyValue
  | bool : Bool → PyValue
  | none : PyValue
  | list : List PyValue → PyValue

/-- Model of `isinstance(value, str)` from line 45. -/
def PyValue.isStr : PyValue → Bool
  | .str _ => true
  | _ => false

/-- The `metadata: Dict` argument of `validate`: a string-keyed mapping of
runtime values. -/
abbrev Metadata := List (String × PyValue)

/-- Result type returned by `validate`: `PassResult()` or
`FailResult(error_message=...)`, as imported from `guardrails.validator_base`. -/
inductive ValidationResult where
  | PassResult : ValidationResult
  | FailResult (error_message : String) : ValidationResult
deriving DecidableEq

/-- Python exceptions that the embedded code can raise. -/
inductive PyErr where
  | NameError (name : String) : PyErr
deriving DecidableEq

/-- Names bound in the module-global namespace of `src/validator/main.py`:
the imports of lines 1-12 and the class defined on line 15. -/
def main_py_module_globals : List String :=
  ["re", "Any", "Callable", "Dict", "Optional",
   "SentenceTransformer", "cosine_similarity",
   "FailResult", "PassResult", "ValidationResult", "Validator",
   "register_validator", "PersonaConsistency"]

/-- Names bound in the local scope of `PersonaConsistency.validate` when line
54 executes: the three parameters of line 43 and the assignment of line 51.
(CPython determines the set of local names statically; `similarity` on line 54
is being assigned, not read, and no other assignment occurs in the body.) -/
def validate_locals_at_line54 : List String :=
  ["self", "value", "metadata", "output_embedding", "similarity"]

/-- Whether a bare name resolves at line 54 of `src/validator/main.py`: CPython
looks it up in the local scope, then the module globals.  (No name used by this
module shadows or is shadowed by a Python builtin, so builtins are irrelevant
here: `persona_embedding` is not a builtin either.) -/
def nameBoundAt54 (n : String) : Bool :=
  validate_locals_at_line54.contains n || main_py_module_globals.contains n

/-- Evaluation of the bare name `persona_embedding`, the first argument of the
`cosine_similarity` call on line 54.  No binding of that name exists in any
enclosing scope — line 41 stores the persona embedding in the attribute
`self._persona_embedding`, never in a variable `persona_embedding` — so CPython
raises `NameError`.  The success type is `Empty`: the branch where the name is
bound is provably unreachable, so there is no value a successful lookup could
yield. -/
def evalLine54Name : Except PyErr Empty :=
  if h : nameBoundAt54 "persona_embedding" = true then
    absurd h (by decide)
  else
    .error (.NameError "persona_embedding")

/-- Checker state built by `PersonaConsistency.__init__` (lines 31-41).  The
`on_fail` policy object is passed through to the host framework unchanged and
never read by this core, so it is omitted. -/
structure PersonaConsistency where
  _persona_description : String
  _similarity_threshold : ℚ
  _model : SentenceTransformer
  _persona_embedding : List Embedding

/-- Default of the `similarity_threshold` parameter (line 34). -/
def default_similarity_threshold : ℚ := 7/10

/-- Model of `PersonaConsistency.__init__` (lines 31-41).  `model` is the
externally supplied sentence-transformer capability (line 40 loads it);
`similarity_threshold = none` means the caller omitted the argument, taking the
default of line 34.  Returns the log of embedder calls made during construction
together with the constructed checker; line 41 makes the single call
`self._model.encode([self._persona_description])`. -/
def PersonaConsistency.init (model : SentenceTransformer)
    (persona_description : String) (similarity_threshold : Option ℚ) :
    EmbedLog × PersonaConsistency :=
  let threshold := similarity_threshold.getD default_similarity_threshold
  ([[persona_description]],
   { _persona_description := persona_description
     _similarity_threshold := threshold
     _model := model
     _persona_embedding := model.encode [persona_description] })

/-- Model of `PersonaConsistency.validate` (lines 43-61).  Returns the checker
state as it stands after the call (the body never assigns to `self`, so it is
returned unchanged), the log of embedder calls the call made, and either the
returned `ValidationResult` or the exception raised.

Line 45: a non-string candidate returns `FailResult("Input must be a string.")`
with no embedder call.  Line 51 embeds the candidate.  Line 54 then evaluates
the bare name `persona_embedding`, which is unbound (see `evalLine54Name`), so
the call raises `NameError` before lines 56-61 can run. -/
def PersonaConsistency.validate (self : PersonaConsistency) (value : PyValue)
    (metadata : Metadata) :
    PersonaConsistency × EmbedLog × Except PyErr ValidationResult :=
  match value with
  | .str v =>
      let output_embedding := self._model.encode [v]
      match evalLine54Name with
      | .error e => (self, [[v]], .error e)
      | .ok emp => emp.elim
  | _ => (self, [], .ok (.FailResult "Input must be a string."))

/-- Nearest-integer rounding with ties to even, the rounding mode of Python
fixed-point formatting. -/
def roundHalfEven (x : ℚ) : ℤ :=
  let n := ⌊x⌋
  let f := x - n
  if f < 1/2 then n
  else if 1/2 < f then n + 1
  else if 2 ∣ n then n else n + 1

/-- Two-decimal fixed-point rendering of a rational, modelling the format spec
`.2f` used in the f-string on line 60 (up to the difference between exact
rationals and binary doubles). -/
def format2f (q : ℚ) : String :=
  let scaled := roundHalfEven (100 * q)
  let sign := if scaled < 0 then "-" else ""
  let a := scaled.natAbs
  sign ++ toString (a / 100) ++ "." ++
    (if a % 100 < 10 then "0" else "") ++ toString (a % 100)

/-- Model of lines 56-61 of `validate`: the threshold decision applied to a
computed similarity.  In the current source these lines are unreachable — line
54 raises `NameError` first — so they are modelled as a standalone function in
order to state claims about the decision rule itself. -/
def similarityDecision (similarity threshold : ℚ) : ValidationResult :=
  if similarity ≥ threshold then .PassResult
  else .FailResult
    ("Output does not maintain the expected persona. Similarity score: "
      ++ format2f similarity)

/-- Concrete stand-in embedder used for witnesses and counterexamples. -/
def toyModel : SentenceTransformer := fun s => [(s.length : ℚ), 1]

/-- Concrete checker over `toyModel` with the default threshold, used for
witnesses and counterexamples. -/
def cheerfulChecker : PersonaConsistency :=
  (PersonaConsistency.init toyModel "a cheerful customer support agent" none).2

/-- Claim C2: for every non-string candidate value, `validate` returns
`FailResult("Input must be a string.")`, makes zero embedder calls, raises no
exception, and leaves the checker unchanged. -/
theorem C2_nonstring_fail_fast (self : PersonaConsistency) (value : PyValue)
    (metadata : Metadata) (h : value.isStr = false) :
    self.validate value metadata =
      (self, [], .ok (.FailResult "Input must be a string.")) := by
  cases value with
  | str s => simp [PyValue.isStr] at h
  | int n => rfl
  | float q => rfl
  | bool b => rfl
  | none => rfl
  | list l => rfl

/-- Witness for C2 at the spec scenario candidate `42`. -/
theorem C2_witness :
    PyValue.isStr (.int 42) = false ∧
    cheerfulChecker.validate (.int 42) [] =
      (cheerfulChecker, [], .ok (.FailResult "Input must be a string.")) :=
  ⟨rfl, C2_nonstring_fail_fast cheerfulChecker (.int 42) [] rfl⟩

/-- Claim C3: for every string candidate, `validate` reads the bare name
`persona_embedding`, which is bound in neither the local scope at line 54 nor
the module globals (first conjunct), and therefore raises an unhandled
`NameError` — after one embedder call on the candidate — instead of producing
any Pass or Fail verdict. -/
theorem C3_string_candidates_raise_nameerror (self : PersonaConsistency)
    (s : String) (metadata : Metadata) :
    nameBoundAt54 "persona_embedding" = false ∧
    self.validate (.str s) metadata =
      (self, [[s]], .error (.NameError "persona_embedding")) :=
  ⟨rfl, rfl⟩

/-- Claim C1 (failing-input evaluation): on the spec scenario that the claim
says must Pass — persona "a cheerful customer support agent", default threshold
0.7, a high-similarity candidate — `validate` raises
`NameError("persona_embedding")` instead of returning Pass iff similarity is at
least the threshold. -/
theorem C1_pass_scenario_raises_nameerror :
    cheerfulChecker.validate (.str "I am so happy to help you today!") [] =
      (cheerfulChecker, [["I am so happy to help you today!"]],
       .error (.NameError "persona_embedding")) := rfl

/-- Claim C5 (failing-input evaluation): on the spec scenario that the claim
says must Fail with a rounded-score message — same persona, a low-similarity
candidate — `validate` raises `NameError("persona_embedding")` before any
similarity is computed or any message formatted. -/
theorem C5_low_similarity_scenario_raises_nameerror :
    cheerfulChecker.validate (.str "Get lost, I do not care.") [] =
      (cheerfulChecker, [["Get lost, I do not care."]],
       .error (.NameError "persona_embedding")) := rfl

/-- Claim C6 (failing-input evaluation): on a candidate byte-identical to the
persona description, where the claim says similarity must compute to 1.0 and
the check must Pass, `validate` raises `NameError("persona_embedding")`
instead. -/
theorem C6_identical_candidate_raises_nameerror :
    cheerfulChecker.validate (.str "a cheerful customer support agent") [] =
      (cheerfulChecker, [["a cheerful customer support agent"]],
       .error (.NameError "persona_embedding")) := rfl

/-- Claim C7: the metadata argument has no effect on the outcome of
`validate`: for every checker, candidate and any two metadata mappings, the
results (state, embedder calls, and verdict or exception) are identical. -/
theorem C7_metadata_irrelevant (self : PersonaConsistency) (value : PyValue)
    (m1 m2 : Metadata) :
    self.validate value m1 = self.validate value m2 := rfl

/-- Claim C8: the similarity threshold is not range-checked: construction
stores any rational threshold unchanged, with no rejection; by the decision
rule of line 56, a threshold above 1 can never Pass on a similarity in
[-1, 1], and a threshold at or below -1 always Passes. -/
theorem C8_threshold_unchecked (model : SentenceTransformer) (P : String)
    (T : ℚ) :
    (PersonaConsistency.init model P (some T)).2._similarity_threshold = T ∧
    (1 < T → ∀ s : ℚ, s ≤ 1 → similarityDecision s T ≠ .PassResult) ∧
    (T ≤ -1 → ∀ s : ℚ, -1 ≤ s → similarityDecision s T = .PassResult) := by
  refine ⟨rfl, ?_, ?_⟩
  · intro hT s hs
    have hlt : ¬ (s ≥ T) := by linarith
    simp only [similarityDecision, if_neg hlt]
    exact fun h => ValidationResult.noConfusion h
  · intro hT s hs
    have hge : s ≥ T := by linarith
    simp only [similarityDecision, if_pos hge]

/-- Witness for C8 at the out-of-range thresholds 2 and -1. -/
theorem C8_witness :
    (PersonaConsistency.init toyModel "p" (some 2)).2._similarity_threshold
      = 2 ∧
    similarityDecision (1/2) 2 ≠ .PassResult ∧
    similarityDecision (-1/2) (-1) = .PassResult :=
  ⟨(C8_threshold_unchecked toyModel "p" 2).1,
   (C8_threshold_unchecked toyModel "p" 2).2.1 (by norm_num) (1/2)
     (by norm_num),
   (C8_threshold_unchecked toyModel "p" (-1)).2.2 (by norm_num) (-1/2)
     (by norm_num)⟩

/-- Claim C9: when the similarity threshold is not supplied at construction,
it defaults to 0.7. -/
theorem C9_default_threshold (model : SentenceTransformer) (P : String) :
    (PersonaConsistency.init model P none).2._similarity_threshold = 7/10 :=
  rfl

/-- Claim C10: every `validate` call leaves the checker state — persona
description, similarity threshold, model and cached persona embedding —
unchanged, for any candidate and metadata. -/
theorem C10_validate_preserves_state (self : PersonaConsistency)
    (value : PyValue) (metadata : Metadata) :
    (self.validate value metadata).1 = self := by
  cases value <;> rfl

/-- Claim C4 counterexample: construction makes exactly one embedder call, but
a subsequent `validate` call on a string candidate makes a further embedder
call (on the candidate), so the embedder call count does not stay at 1:
starting from zero calls, one construction followed by one check totals 2
logged calls, not 1. -/
theorem C4_counterexample :
    (PersonaConsistency.init toyModel "p" none).1.length = 1 ∧
    ((PersonaConsistency.init toyModel "p" none).2.validate (.str "hello")
      []).2.1 ≠ [] ∧
    ((PersonaConsistency.init toyModel "p" none).1 ++
     ((PersonaConsistency.init toyModel "p" none).2.validate (.str "hello")
       []).2.1).length = 2 :=
  ⟨rfl, fun h => List.noConfusion h, rfl⟩

/-- Claim C4 as amended: construction calls the embedder exactly once, on the
persona description, and caches the result as the persona embedding;
subsequent `validate` calls never recompute the persona embedding — each one
makes exactly one embedder call, on the candidate, if the candidate is a
string, and none otherwise. -/
theorem C4_embedder_calls_amended (model : SentenceTransformer) (P : String)
    (T : Option ℚ) :
    (PersonaConsistency.init model P T).1 = [[P]] ∧
    (PersonaConsistency.init model P T).2._persona_embedding
      = model.encode [P] ∧
    (∀ value metadata,
      ((PersonaConsistency.init model P T).2.validate value metadata).2.1 =
        match value with
        | .str s => [[s]]
        | _ => []) := by
  refine ⟨rfl, rfl, ?_⟩
  intro value metadata
  cases value <;> rfl
